import Mathlib

/-!
Verification of the plan–execute–clarify control flow of the
Abbott_AI_Analysis_MVP repository.

The Python sources under `src/agents/planner.py`, `src/agents/executor.py`,
`src/langgraph_workflow/{nodes,clarification_node,workflow,state}.py` are
shallowly embedded below: each Python function becomes a Lean function over
explicit state, Python dictionaries become insertion-ordered association
lists, the external LLM / SQL-agent / database calls become oracle
parameters (`Except String _` models "returns normally or raises"), and
Python's substring test `a in b` becomes `strContains b a`.
-/

namespace Abbott

/-! ## String utilities (Python `in`, `.lower()`, `' AND '.join`, `re.findall('\d+')`) -/

/-- Boolean prefix test on character lists. -/
def leadsWith : List Char → List Char → Bool
  | [], _ => true
  | _ :: _, [] => false
  | a :: as, b :: bs => a == b && leadsWith as bs

/-- Boolean substring test on character lists: does `needle` occur
contiguously inside the second argument? -/
def hasRun (needle : List Char) : List Char → Bool
  | [] => needle.isEmpty
  | c :: rest => leadsWith needle (c :: rest) || hasRun needle rest

/-- Python's `needle in hay` substring test. -/
def strContains (hay needle : String) : Bool :=
  hasRun needle.data hay.data

/-- Python's `str.lower()` (ASCII-faithful). -/
def lowerStr (s : String) : String := ⟨s.data.map Char.toLower⟩

/-- Python's `str.upper()` (ASCII-faithful). -/
def upperStr (s : String) : String := ⟨s.data.map Char.toUpper⟩

/-- Python's `str.strip()`: drop whitespace from both ends. -/
def pyStrip (cs : List Char) : List Char :=
  ((cs.dropWhile Char.isWhitespace).reverse.dropWhile Char.isWhitespace).reverse

/-- Split a character list on newline characters (`str.split('\n')`:
always at least one piece). -/
def splitNl : List Char → List (List Char)
  | [] => [[]]
  | c :: rest =>
    match splitNl rest with
    | [] => [[c]]
    | l :: ls => if c = '\n' then [] :: l :: ls else (c :: l) :: ls

/-- Python's `sep.join(parts)`. -/
def joinSep (sep : String) : List String → String
  | [] => ""
  | [x] => x
  | x :: y :: rest => x ++ sep ++ joinSep sep (y :: rest)

/-- Value of a maximal digit run, as Python's `int()` of the matched text. -/
def digitsVal (ds : List Char) : Nat :=
  ds.foldl (fun acc c => acc * 10 + (c.toNat - '0'.toNat)) 0

/-- First maximal run of digits in a character list
(`re.findall(r'\d+', s)` followed by taking the first match). -/
def firstDigitRun : List Char → Option (List Char)
  | [] => none
  | c :: rest =>
    if c.isDigit then some (c :: rest.takeWhile Char.isDigit)
    else firstDigitRun rest

/-- Python's `int(re.findall(r'\d+', s)[0])`, `none` when there is no digit. -/
def firstNat (s : String) : Option Nat :=
  (firstDigitRun s.data).map digitsVal

/-! ### Lemmas about substring containment -/

theorem leadsWith_nil (l : List Char) : leadsWith [] l = true := by
  cases l <;> rfl

theorem leadsWith_append (n t : List Char) : leadsWith n (n ++ t) = true := by
  induction n with
  | nil => exact leadsWith_nil t
  | cons a as ih => simp [leadsWith, ih]

theorem leadsWith_extend {n h : List Char} (t : List Char)
    (hp : leadsWith n h = true) : leadsWith n (h ++ t) = true := by
  induction n generalizing h with
  | nil => exact leadsWith_nil _
  | cons a as ih =>
    cases h with
    | nil => simp [leadsWith] at hp
    | cons c hs =>
      simp only [leadsWith, Bool.and_eq_true] at hp ⊢
      exact ⟨hp.1, ih hp.2⟩

theorem hasRun_nil_needle (l : List Char) : hasRun [] l = true := by
  cases l with
  | nil => rfl
  | cons c rest => simp [hasRun, leadsWith_nil]

theorem hasRun_of_leadsWith {n h : List Char} (hp : leadsWith n h = true) :
    hasRun n h = true := by
  cases h with
  | nil =>
    cases n with
    | nil => rfl
    | cons a as => simp [leadsWith] at hp
  | cons c rest => simp [hasRun, hp]

theorem hasRun_append_left {n a : List Char} (b : List Char)
    (hr : hasRun n a = true) : hasRun n (a ++ b) = true := by
  induction a with
  | nil =>
    simp only [hasRun, List.isEmpty_iff] at hr
    subst hr
    exact hasRun_nil_needle b
  | cons c rest ih =>
    simp only [hasRun, Bool.or_eq_true] at hr
    rcases hr with hp | hr
    · exact hasRun_of_leadsWith (leadsWith_extend b hp)
    · simp [hasRun, ih hr]

theorem hasRun_append_right {n b : List Char} (a : List Char)
    (hr : hasRun n b = true) : hasRun n (a ++ b) = true := by
  induction a with
  | nil => exact hr
  | cons c rest ih => simp [hasRun, ih]

theorem hasRun_self_append (n t : List Char) : hasRun n (n ++ t) = true :=
  hasRun_of_leadsWith (leadsWith_append n t)

theorem strContains_append_left {a : String} (n b : String)
    (h : strContains a n = true) : strContains (a ++ b) n = true := by
  simpa [strContains, String.data_append] using hasRun_append_left b.data h

theorem strContains_append_right {b : String} (n a : String)
    (h : strContains b n = true) : strContains (a ++ b) n = true := by
  simpa [strContains, String.data_append] using hasRun_append_right a.data h

theorem strContains_self_append (n t : String) :
    strContains (n ++ t) n = true := by
  simpa [strContains, String.data_append] using hasRun_self_append n.data t.data

theorem strContains_mid (a n b : String) :
    strContains (a ++ n ++ b) n = true := by
  have h1 : strContains (n ++ b) n = true := strContains_self_append n b
  have h2 := strContains_append_right n a h1
  simpa [String.append_assoc] using h2

/-! ## Data model

`WorkplanStep` mirrors the pydantic models `WorkplanStep` of
`src/agents/planner.py` / `src/langgraph_workflow/state.py`;
`StepExecutionResult` mirrors the pydantic model of `src/agents/executor.py`.
Python dictionaries (insertion ordered) become association lists with
insert-or-replace update. -/

/-- A step parameter value: the code branches with `isinstance(value, list)`
(only for the `quarters` key), so a param is a string or a list of strings. -/
inductive ParamVal where
  | str (s : String)
  | list (l : List String)
deriving DecidableEq, Repr

/-- Python's `f"{value}"` rendering of a param value (a list renders the way
Python prints a list of strings). -/
def ParamVal.render : ParamVal → String
  | .str s => s
  | .list l => "[" ++ joinSep ", " (l.map (fun s => "'" ++ s ++ "'")) ++ "]"

/-- Python's `needle in value`: substring test on a string, membership on a
list. -/
def ParamVal.containsTok (v : ParamVal) (needle : String) : Bool :=
  match v with
  | .str s => strContains s needle
  | .list l => l.contains needle

/-- One workplan step (`WorkplanStep` pydantic model). -/
structure WorkplanStep where
  id : String
  type : String
  depends_on : List String
  question : String
  params : List (String × ParamVal)
deriving DecidableEq, Repr

/-- Result rows returned by the database for one query: a list of
column-name/rendered-value records. -/
abbrev Row := List (String × String)

/-- The `result` payload of a step: rows from direct SQL execution, or the
free text returned by the SQL-agent fallback. -/
inductive ResVal where
  | rows (rs : List Row)
  | txt (s : String)
deriving DecidableEq, Repr

/-- `StepExecutionResult` pydantic model of `src/agents/executor.py`. -/
structure StepExecutionResult where
  step_id : String
  success : Bool
  sql : Option String := none
  result : Option ResVal := none
  error : Option String := none
  result_summary : Option String := none
deriving DecidableEq, Repr

/-- Run-scoped mapping `step_results[step_id]` (a Python dict). -/
abbrev ResultsDict := List (String × StepExecutionResult)

/-- Python dict indexing `m.get(k)`. -/
def dictGet (m : ResultsDict) (k : String) : Option StepExecutionResult :=
  (m.find? (fun kv => kv.1 == k)).map (fun kv => kv.2)

/-- Python dict update `m[k] = v`: replace in place if the key exists,
append otherwise (insertion order preserved). -/
def dictInsert (m : ResultsDict) (k : String) (v : StepExecutionResult) :
    ResultsDict :=
  if m.any (fun kv => kv.1 == k) then
    m.map (fun kv => if kv.1 == k then (k, v) else kv)
  else m ++ [(k, v)]

/-- `PlannerOutput` pydantic model of `src/agents/planner.py`. -/
structure PlannerOutput where
  workplan : List WorkplanStep
  ambiguities : List String := []
deriving DecidableEq, Repr

/-! ## Plan Builder (`src/agents/planner.py`, class `SimplePlanner`)

The schema vocabulary consumed by `_detect_ambiguities` is a mapping whose
values may or may not be dicts of term → info, where info may be a dict
(possibly flagged `ambiguous`, with optional `options` and
`clarification_needed`) or a plain string. -/

/-- Info attached to one vocabulary term. -/
inductive VocabInfo where
  | plain (s : String)
  | entry (ambiguous : Bool) (options : Option (List String))
      (clarification : Option String)
deriving DecidableEq, Repr

/-- One value of the vocabulary mapping: a dict of terms, or some other
value (skipped by the `isinstance(group, dict)` check). -/
inductive VocabGroup where
  | dict (terms : List (String × VocabInfo))
  | other
deriving DecidableEq, Repr

/-- The business-context vocabulary (`business_context['vocabulary']`). -/
abbrev Vocab := List (String × VocabGroup)

/-- Clarification string for one ambiguous term
(`info.get("clarification_needed", f"Please clarify '{term}'")`). -/
def termClarification (term : String) : Option String → String
  | some c => c
  | none => "Please clarify '" ++ term ++ "'"

/-- One vocabulary term's contribution to the ambiguity list:
appended when the term occurs in the lowercased query, is flagged ambiguous,
none of its `options` already occurs in the query, and the clarification
string is not already present. -/
def vocabTermStep (query_lc : String) (acc : List String)
    (term : String) (info : VocabInfo) : List String :=
  match info with
  | .plain _ => acc
  | .entry ambiguous options clarification =>
    if ambiguous && strContains query_lc term then
      let clarified :=
        match options with
        | some opts => opts.any (fun o => strContains query_lc (lowerStr o))
        | none => false
      if clarified then acc
      else
        let c := termClarification term clarification
        if acc.contains c then acc else acc ++ [c]
    else acc

/-- `SimplePlanner._detect_ambiguities`: YAML-driven term scan followed by
the three hard-coded heuristics (achievement, generic "sales", vague time
period).  The membership guards of the first two heuristics test strings
that are never the appended ones, exactly as in the source. -/
def detect_ambiguities (vocab : Vocab) (query : String) : List String :=
  let query_lc := lowerStr query
  let fromVocab :=
    vocab.foldl
      (fun acc kv =>
        match kv.2 with
        | .dict terms =>
          terms.foldl (fun acc tkv => vocabTermStep query_lc acc tkv.1 tkv.2) acc
        | .other => acc)
      []
  let afterAchievement :=
    if (strContains query_lc "achievement" || strContains query_lc "achieve"
          || strContains query_lc "target")
        && !(["primary", "secondary"].any (fun w => strContains query_lc w)) then
      if fromVocab.contains
          ("Value Achievement (sales amount) or Unit Achievement (quantity sold)?"
            ++ " Achievement to be calculated over Primary or Secondary ?") then
        fromVocab
      else
        fromVocab ++ ["For achievement calculation: Primary or Secondary sales? Value or Units?"]
    else fromVocab
  let afterSales :=
    if strContains query_lc "sales"
        && !(["primary", "secondary", "prim", "sec"].any
              (fun w => strContains query_lc w)) then
      if afterAchievement.contains
          ("'sales' – is that Primary or Secondary?  Value or Units?") then
        afterAchievement
      else
        afterAchievement ++ ["When you say 'sales': Primary or Secondary? Value or Units?"]
    else afterAchievement
  let monthNames := ["jan", "feb", "mar", "apr", "may", "jun", "jul", "aug",
    "sep", "oct", "nov", "dec"]
  if (["this month", "last month", "this quarter", "last quarter", "current"].any
        (fun p => strContains query_lc p))
      && !(monthNames.any (fun m => strContains query_lc m))
      && !((["q1", "q2", "q3", "q4"] : List String).any
            (fun q => strContains query_lc q)) then
    afterSales
      ++ ["Please specify the exact time period (e.g., 'Mar' for March, 'Q1' for first quarter)"]
  else afterSales

/-- `SimplePlanner._enhance_query_with_context`. -/
def enhance_query_with_context (query : String) : String :=
  let e0 := query
  let e1 :=
    if strContains (lowerStr query) "achievement" && !(strContains query "%") then
      e0 ++ " (Calculate achievement as percentage)"
    else e0
  if strContains (lowerStr query) "growth"
      && !(strContains (lowerStr query) "yoy")
      && !(strContains (lowerStr query) "year") then
    e1 ++ " (Calculate year-over-year growth)"
  else e1

/-- `SimplePlanner.plan`: detect static ambiguities, enhance the query, call
the external structured-output chain (the `oracle`, which may raise), then
overwrite the returned `ambiguities` with the statically detected list.
An oracle error models both a raised exception and a structured-output
validation failure (missing/ill-typed required fields). -/
def plannerPlan (vocab : Vocab) (oracle : String → Except String PlannerOutput)
    (query : String) : Except String PlannerOutput :=
  let ambiguities := detect_ambiguities vocab query
  let enhanced := enhance_query_with_context query
  match oracle enhanced with
  | .error e => .error e
  | .ok result => .ok { workplan := result.workplan, ambiguities := ambiguities }

/-! ## Step Compiler (`src/agents/executor.py`, class `StepExecutor`)

The database connection, the SQL agent and the LLM are oracles bundled in
`ExecEffects`; `Except String _` models "returns normally or raises with
this message".  `_register_view` only mutates the database (a `CREATE OR
REPLACE TEMP VIEW`, with its own swallow-all handler), which the `exec_sql`
oracle abstracts, so it contributes nothing to the modeled state. -/

/-- Result dictionary returned by `sql_agent.ask`. -/
structure AgentResult where
  success : Bool
  sql : Option String := none
  result : Option String := none
  error : Option String := none
deriving DecidableEq, Repr

/-- External collaborators of `StepExecutor`: the database connection, the
SQL-agent fallback, the result summarizer (`_summarize_result`, whose
Python numeric formatting is abstracted; no claim concerns its text), and
Python's `str()` rendering of the previous-results dict (used only in one
containment test of `_generate_calculate_sql`). -/
structure ExecEffects where
  exec_sql : String → Except String (List Row)
  agent_ask : String → Except String AgentResult
  summarize : List Row → WorkplanStep → String
  pyStr : ResultsDict → String

/-- `_build_context`: the dependency-restricted slice of `previous_results`
(the `current_step` entry is carried in Python but never read back). -/
def buildContext (step : WorkplanStep) (prev : ResultsDict) : ResultsDict :=
  step.depends_on.foldl
    (fun acc dep =>
      match dictGet prev dep with
      | some r => dictInsert acc dep r
      | none => acc)
    []

/-- `WITH <id> AS (SELECT * FROM <source> WHERE ` prefix of a filter step:
the first dependency when present, else the base `analyzer` table. -/
def filterBase (step : WorkplanStep) : String :=
  match step.depends_on with
  | dep :: _ =>
    "WITH " ++ step.id ++ " AS (\n  SELECT * FROM " ++ dep ++ "\n  WHERE "
  | [] =>
    "WITH " ++ step.id ++ " AS (\n  SELECT * FROM analyzer\n  WHERE "

/-- The default `Mth != 'All'` exclusion: appended unless the lowercased
question contains the quoted literal `'all'` or the word `total`. -/
def monthNotAllCond (question_lc : String) : List String :=
  if !(strContains question_lc "'all'") && !(strContains question_lc "total") then
    ["Mth != 'All'"]
  else []

/-- Month set of one quarter label (`Q1`–`Q4`, case-insensitive). -/
def quarterMonths (q : String) : List String :=
  if upperStr q = "Q1" then ["Jan", "Feb", "Mar"]
  else if upperStr q = "Q2" then ["Apr", "May", "Jun"]
  else if upperStr q = "Q3" then ["Jul", "Aug", "Sep"]
  else if upperStr q = "Q4" then ["Oct", "Nov", "Dec"]
  else []

/-- WHERE conditions derived from the recognized param keys, in insertion
order (`zone`, `month`, `status`, `territory`, `brand`, list-valued
`quarters`). -/
def filterParamConds (params : List (String × ParamVal)) : List String :=
  params.foldl
    (fun acc kv =>
      let kl := lowerStr kv.1
      if kl = "zone" then acc ++ ["UPPER(Zone) = UPPER('" ++ kv.2.render ++ "')"]
      else if kl = "month" then acc ++ ["Mth = '" ++ kv.2.render ++ "'"]
      else if kl = "status" then acc ++ ["Status = '" ++ kv.2.render ++ "'"]
      else if kl = "territory" then acc ++ ["Terr_Code = '" ++ kv.2.render ++ "'"]
      else if kl = "brand" then acc ++ ["Brand = '" ++ kv.2.render ++ "'"]
      else if kl = "quarters" then
        match kv.2 with
        | .list qs =>
          let months := qs.foldl (fun ms q => ms ++ quarterMonths q) []
          if months.isEmpty then acc
          else acc ++
            ["Mth IN (" ++ joinSep ", " (months.map (fun m => "'" ++ m ++ "'")) ++ ")"]
        | .str _ => acc
      else acc)
    []

/-- Lexical fallback: a literally present `delhi` adds a zone condition
when no param key mentions `zone`. -/
def delhiFallback (question_lc : String) (params : List (String × ParamVal)) :
    List String :=
  if strContains question_lc "delhi"
      && !(params.any (fun kv => strContains (lowerStr kv.1) "zone")) then
    ["UPPER(Zone) = 'DELHI'"]
  else []

/-- The `months_map` dict of `_generate_filter_sql`, in insertion order
(`may` appears once, being both full name and abbreviation). -/
def monthsMap : List (String × String) :=
  [("january", "Jan"), ("february", "Feb"), ("march", "Mar"), ("april", "Apr"),
   ("may", "May"), ("june", "Jun"), ("july", "Jul"), ("august", "Aug"),
   ("september", "Sep"), ("october", "Oct"), ("november", "Nov"),
   ("december", "Dec"),
   ("jan", "Jan"), ("feb", "Feb"), ("mar", "Mar"), ("apr", "Apr"),
   ("jun", "Jun"), ("jul", "Jul"), ("aug", "Aug"), ("sep", "Sep"),
   ("oct", "Oct"), ("nov", "Nov"), ("dec", "Dec")]

/-- Lexical fallback: the first month name found in the question adds a
month condition when no param key mentions `month` (the loop breaks after
the first match). -/
def monthFallback (question_lc : String) (params : List (String × ParamVal)) :
    List String :=
  if params.any (fun kv => strContains (lowerStr kv.1) "month") then []
  else
    match monthsMap.find? (fun nm => strContains question_lc nm.1) with
    | some nm => ["Mth = '" ++ nm.2 ++ "'"]
    | none => []

/-- The full WHERE-condition list of a filter step, in the order the source
builds it. -/
def filterConditions (step : WorkplanStep) : List String :=
  let q := lowerStr step.question
  monthNotAllCond q ++ filterParamConds step.params
    ++ delhiFallback q step.params ++ monthFallback q step.params

/-- `_generate_filter_sql`: the conditions joined with ` AND `, or the
fixed fallback query (which always excludes `Mth = 'All'`) when no
condition was produced. -/
def generate_filter_sql (step : WorkplanStep) : String :=
  let conditions := filterConditions step
  if conditions.isEmpty then
    "WITH " ++ step.id
      ++ " AS (\n  SELECT * FROM analyzer\n  WHERE Mth != 'All'\n)\nSELECT * FROM "
      ++ step.id
  else
    filterBase step ++ joinSep " AND " conditions ++ "\n)\nSELECT * FROM " ++ step.id

/-- `_generate_aggregate_sql`. -/
def generate_aggregate_sql (step : WorkplanStep) : String :=
  let q := lowerStr step.question
  let source := match step.depends_on with | d :: _ => d | [] => "analyzer"
  let gbp := (((step.params.find? (fun kv => kv.1 == "group_by")).map
    (fun kv => kv.2)).getD (.str ""))
  let dims0 : List String × List String := ([], [])
  let dims1 :=
    if strContains q "by brand" || gbp.containsTok "brand" then
      (dims0.1 ++ ["Brand"], dims0.2 ++ ["Brand"])
    else dims0
  let dims2 :=
    if strContains q "by territory" || gbp.containsTok "territory" then
      (dims1.1 ++ ["Terr_Code", "TBM_Name"], dims1.2 ++ ["Terr_Code", "TBM_Name"])
    else dims1
  let dims3 :=
    if strContains q "by zone" || gbp.containsTok "zone" then
      (dims2.1 ++ ["Zone"], dims2.2 ++ ["Zone"])
    else dims2
  let dims4 :=
    if strContains q "by status" || gbp.containsTok "status" then
      (dims3.1 ++ ["Status"], dims3.2 ++ ["Status"])
    else dims3
  let dims5 :=
    if dims4.2.isEmpty && (strContains q "delhi" || strContains q "zone") then
      (dims4.1 ++ ["Zone"], dims4.2 ++ ["Zone"])
    else dims4
  let metrics :=
    if strContains q "primary" && strContains q "value" then
      ["SUM(Prim_Value) as total_primary_value", "SUM(Tgt_Value) as total_target_value"]
    else if strContains q "secondary" && strContains q "value" then
      ["SUM(Sec_Value) as total_secondary_value", "SUM(Tgt_Value) as total_target_value"]
    else if strContains q "primary" && strContains q "unit" then
      ["SUM(Prim_Units) as total_primary_units", "SUM(Tgt_Units) as total_target_units"]
    else if strContains q "secondary" && strContains q "unit" then
      ["SUM(Sec_Units) as total_secondary_units", "SUM(Tgt_Units) as total_target_units"]
    else if strContains q "target" || strContains q "achievement" then
      ["SUM(Prim_Value) as total_primary_value", "SUM(Tgt_Value) as total_target_value"]
    else
      ["SUM(Prim_Value) as total_primary_value", "SUM(Tgt_Value) as total_target_value"]
  let select_parts := dims5.1 ++ metrics
  if dims5.2.isEmpty then
    "WITH " ++ step.id ++ " AS (\n  SELECT " ++ joinSep ", " select_parts
      ++ "\n  FROM " ++ source ++ "\n)\nSELECT * FROM " ++ step.id
  else
    "WITH " ++ step.id ++ " AS (\n  SELECT " ++ joinSep ", " select_parts
      ++ "\n  FROM " ++ source ++ "\n  GROUP BY " ++ joinSep ", " dims5.2
      ++ "\n)\nSELECT * FROM " ++ step.id

/-- The derived-formula column of `_generate_calculate_sql`: chosen from
question keywords and the `metric` param, switching to the pre-aggregated
aliases when the upstream relation already aggregated. -/
def calcCalculation (q : String) (metric : ParamVal) (has_agg : Bool) : String :=
  if strContains q "achievement" || metric.containsTok "achievement"
      || strContains q "achieve" || strContains q "target" then
    if strContains q "secondary" || metric.containsTok "secondary" then
      if has_agg then
        "(total_secondary_value / NULLIF(total_target_value, 0)) * 100 as achievement_pct"
      else
        "(SUM(Sec_Value) / NULLIF(SUM(Tgt_Value), 0)) * 100 as achievement_pct"
    else
      if has_agg then
        "(total_primary_value / NULLIF(total_target_value, 0)) * 100 as achievement_pct"
      else
        "(SUM(Prim_Value) / NULLIF(SUM(Tgt_Value), 0)) * 100 as achievement_pct"
  else if strContains q "growth" || metric.containsTok "growth" then
    if strContains q "primary" || metric.containsTok "primary" then
      "((SUM(Prim_Value) - SUM(LY_Prim_Value)) / NULLIF(SUM(LY_Prim_Value), 0)) * 100 as growth_pct"
    else
      "((SUM(Sec_Value) - SUM(LY_Sec_Value)) / NULLIF(SUM(LY_Sec_Value), 0)) * 100 as growth_pct"
  else if strContains q "gap" || metric.containsTok "gap" then
    if has_agg then "total_target_value - total_primary_value as performance_gap"
    else "SUM(Tgt_Value) - SUM(Prim_Value) as performance_gap"
  else
    if has_agg then "total_primary_value as value"
    else "SUM(Prim_Value) as value"

/-- Whether the upstream relation already exposes aggregated columns: its
recorded SQL is a non-empty string containing `sum(`, `avg(` or `count(`.
(A stored `None` SQL is falsy under Python's `.get('sql','')` truth test.) -/
def calcHasAggregated (context : ResultsDict) (source : String) : Bool :=
  source != "analyzer" &&
    match dictGet context source with
    | some r =>
      match r.sql with
      | some s =>
        !(s == "") && (strContains (lowerStr s) "sum("
          || strContains (lowerStr s) "avg(" || strContains (lowerStr s) "count(")
      | none => false
    | none => false

/-- `_generate_calculate_sql`.  In the no-aggregation, no-dimension branch
the source appends a plain (non-f) string, so the final SELECT references
the literal text `{step['id']}` — reproduced faithfully. -/
def generate_calculate_sql (pyStr : ResultsDict → String) (step : WorkplanStep)
    (context : ResultsDict) : String :=
  let q := lowerStr step.question
  let metric := (((step.params.find? (fun kv => kv.1 == "metric")).map
    (fun kv => kv.2)).getD (.str ""))
  let source := match step.depends_on with | d :: _ => d | [] => "analyzer"
  let has_agg := calcHasAggregated context source
  let calculation := calcCalculation q metric has_agg
  if has_agg then
    "WITH " ++ step.id ++ " AS (\n  SELECT *, " ++ calculation ++ "\n  FROM "
      ++ source ++ "\n)\nSELECT * FROM " ++ step.id
  else
    let ctxStr := pyStr context
    let dims := ["Zone", "Brand", "Terr_Code", "TBM_Name", "Status"].filter
      (fun col => strContains q (lowerStr col) || strContains ctxStr col)
    if dims.isEmpty then
      "WITH " ++ step.id ++ " AS (\n  SELECT " ++ calculation ++ "\n  FROM "
        ++ source ++ (if source = "analyzer" then "\n  WHERE Mth != 'All'" else "")
        ++ "\n)\nSELECT * FROM \x7bstep['id']\x7d"
    else
      "WITH " ++ step.id ++ " AS (\n  SELECT " ++ joinSep ", " dims ++ ", "
        ++ calculation ++ "\n  FROM " ++ source
        ++ (if source = "analyzer" then "\n  WHERE Mth != 'All'" else "")
        ++ "\n  GROUP BY " ++ joinSep ", " dims ++ "\n)\nSELECT * FROM " ++ step.id

/-- Sort column chosen from the question when the upstream SQL exposed no
known alias. -/
def rankQuestionOrderBy (q : String) : String :=
  if strContains q "achievement" then "achievement_pct"
  else if strContains q "growth" then "growth_pct"
  else if strContains q "gap" then "performance_gap"
  else if strContains q "value" || strContains q "sales" then
    if strContains q "secondary" then "total_secondary_value"
    else "total_primary_value"
  else "total_primary_value"

/-- Alias scan over the upstream step's recorded SQL, in source precedence. -/
def rankUpstreamOrderBy (prev_sql : String) : Option String :=
  if strContains prev_sql "achievement_pct" then some "achievement_pct"
  else if strContains prev_sql "growth_pct" then some "growth_pct"
  else if strContains prev_sql "total_secondary_value" then some "total_secondary_value"
  else if strContains prev_sql "total_primary_value" then some "total_primary_value"
  else if strContains prev_sql "performance_gap" then some "performance_gap"
  else none

/-- Sort direction: `DESC` on top/highest/best, else `ASC` on
bottom/lowest/worst/underperform, else `DESC`. -/
def rankDirection (q : String) : String :=
  if strContains q "top" || strContains q "highest" || strContains q "best" then
    "DESC"
  else if strContains q "bottom" || strContains q "lowest"
      || strContains q "worst" || strContains q "underperform" then
    "ASC"
  else "DESC"

/-- Row limit: first integer literal in the question, defaulting to 5. -/
def rankLimit (q : String) : Nat := (firstNat q).getD 5

/-- Final ORDER BY column of a rank step. -/
def rankOrderBy (q : String) (upstream : Option String) : String :=
  match upstream with
  | some o => o
  | none => rankQuestionOrderBy q

/-- Source relation of a rank step: the first dependency, else the base
table. -/
def rankSource (step : WorkplanStep) : String :=
  match step.depends_on with | d :: _ => d | [] => "analyzer"

/-- Assembled SQL of a rank step, concatenated line by line as the source
does. -/
def rankAssemble (step : WorkplanStep) (source order_by q : String) : String :=
  "WITH " ++ step.id ++ " AS (\n" ++ "  SELECT *\n" ++ "  FROM " ++ source ++ "\n"
    ++ "  ORDER BY " ++ order_by ++ " " ++ rankDirection q ++ "\n"
    ++ "  LIMIT " ++ toString (rankLimit q) ++ "\n"
    ++ ")\nSELECT * FROM " ++ step.id

/-- `_generate_rank_sql`.  When the upstream result is present but its
recorded SQL is `None`, the source calls `.lower()` on `None` and raises
(`context['previous_results'][source].get('sql', '').lower()`). -/
def generate_rank_sql (step : WorkplanStep) (context : ResultsDict) :
    Except String String :=
  let q := lowerStr step.question
  match dictGet context (rankSource step) with
  | some r =>
    match r.sql with
    | none => .error "'NoneType' object has no attribute 'lower'"
    | some s =>
      .ok (rankAssemble step (rankSource step)
        (rankOrderBy q (rankUpstreamOrderBy (lowerStr s))) q)
  | none => .ok (rankAssemble step (rankSource step) (rankOrderBy q none) q)

/-- Python `f"{x}"` rendering of an optional string (`None` → `"None"`). -/
def renderOptStr : Option String → String
  | none => "None"
  | some s => s

/-- The query `_execute_with_agent` sends: the step question, plus each
dependency's recorded summary (the `'result_summary' in prev_result` key
test always passes on a stored result dict, its value possibly `None`). -/
def agentQuery (step : WorkplanStep) (context : ResultsDict) : String :=
  if step.depends_on.isEmpty then step.question
  else
    step.depends_on.foldl
      (fun acc dep =>
        match dictGet context dep with
        | some r => acc ++ "\n- " ++ dep ++ ": " ++ renderOptStr r.result_summary
        | none => acc)
      (step.question ++ "\n\nContext from previous steps:")

/-- `_extract_summary`: first line of the agent's text, truncated to 200
characters; `"No result"` for a missing or empty text. -/
def extract_summary : Option String → String
  | none => "No result"
  | some t =>
    if t = "" then "No result"
    else
      match splitNl (pyStrip t.data) with
      | [] => ⟨t.data.take 200⟩
      | l :: _ => ⟨l.take 200⟩

/-- `_execute_with_agent` (its internal try/except folded into the oracle's
`Except`). -/
def execute_with_agent (eff : ExecEffects) (step : WorkplanStep)
    (context : ResultsDict) : StepExecutionResult :=
  match eff.agent_ask (agentQuery step context) with
  | .error m => { step_id := step.id, success := false, error := some m }
  | .ok r =>
    if r.success then
      { step_id := step.id, success := true, sql := r.sql,
        result := r.result.map ResVal.txt,
        result_summary := some (extract_summary r.result) }
    else
      { step_id := step.id, success := false,
        error := some (r.error.getD "Unknown error from SQL agent") }

/-- Message of the exception `_execute_sql` wraps around a database error. -/
def sqlErrorMsg (m sql : String) : String :=
  "SQL execution error: " ++ m ++ "\nSQL: " ++ sql

/-- Run one generated fragment: empty SQL falls back to the agent
(`if sql:`), a database error is wrapped by `_execute_sql` and caught by
`execute_step`'s handler, success materializes the rows and a summary. -/
def runGenerated (eff : ExecEffects) (step : WorkplanStep)
    (context : ResultsDict) (sql : String) : StepExecutionResult :=
  if sql = "" then execute_with_agent eff step context
  else
    match eff.exec_sql sql with
    | .error m =>
      { step_id := step.id, success := false, error := some (sqlErrorMsg m sql) }
    | .ok rows =>
      { step_id := step.id, success := true, sql := some sql,
        result := some (.rows rows),
        result_summary := some (eff.summarize rows step) }

/-- `StepExecutor.execute_step`: dispatch on the step type; `compare` (a
rule that returns no fragment) and unknown types delegate to the SQL agent;
any exception is caught and recorded as a failed result. -/
def execute_step (eff : ExecEffects) (step : WorkplanStep)
    (prev : ResultsDict) : StepExecutionResult :=
  let context := buildContext step prev
  if step.type = "filter" then
    runGenerated eff step context (generate_filter_sql step)
  else if step.type = "aggregate" then
    runGenerated eff step context (generate_aggregate_sql step)
  else if step.type = "calculate" then
    runGenerated eff step context (generate_calculate_sql eff.pyStr step context)
  else if step.type = "rank" then
    match generate_rank_sql step context with
    | .error m => { step_id := step.id, success := false, error := some m }
    | .ok sql => runGenerated eff step context sql
  else if step.type = "compare" then
    execute_with_agent eff step context
  else
    execute_with_agent eff step context

/-! ## Workflow state and nodes
(`src/langgraph_workflow/{state,nodes,clarification_node,workflow}.py`)

A LangGraph node returns a partial update merged into the state; here each
node returns the whole merged state, leaving unmentioned fields unchanged
(`past_steps` is the only accumulating channel, and only
`execute_step_node` appends to it). -/

/-- `PlanExecuteState` of `src/langgraph_workflow/state.py`. -/
structure PlanExecuteState where
  input : String
  workplan : List WorkplanStep
  past_steps : List (String × StepExecutionResult)
  current_step_index : Nat
  step_results : ResultsDict
  final_response : String
  sql_query : Option String
  sql_queries : List String
  success : Bool
  error : Option String
  ambiguities : List String
  requires_clarification : Bool
  clarification_answers : List (String × String)
  clarification_needed : Bool
deriving DecidableEq, Repr

/-- The initial state built by `AbbottPlanExecuteWorkflow.run`. -/
def initialState (question : String) (answers : List (String × String)) :
    PlanExecuteState :=
  { input := question, workplan := [], past_steps := [],
    current_step_index := 0, step_results := [], final_response := "",
    sql_query := none, sql_queries := [], success := false, error := none,
    ambiguities := [], requires_clarification := false,
    clarification_answers := answers, clarification_needed := false }

/-- `planning_node`: build a plan for `state['input']`; on success reset the
execution fields and derive both clarification flags from the ambiguity
list (`plan_output.ambiguities or []` is the identity on a list); on any
exception return a failure update touching only `workplan`, `success` and
`error`. -/
def planning_node (vocab : Vocab)
    (oracle : String → Except String PlannerOutput)
    (s : PlanExecuteState) : PlanExecuteState :=
  match plannerPlan vocab oracle s.input with
  | .ok po =>
    { s with
      workplan := po.workplan,
      current_step_index := 0,
      step_results := [],
      sql_queries := [],
      success := true,
      ambiguities := po.ambiguities,
      requires_clarification := !po.ambiguities.isEmpty,
      clarification_answers := s.clarification_answers,
      clarification_needed := !po.ambiguities.isEmpty }
  | .error e =>
    { s with
      workplan := [],
      success := false,
      error := some ("Planning failed: " ++ e) }

/-- The clarified query the gate re-plans with: the original question with
each `answer-key: answer` pair stitched on
(`state["input"] + "\n" + "\n".join(f"{k}: {v}" ...)`). -/
def replanQuery (s : PlanExecuteState) : String :=
  s.input ++ "\n"
    ++ joinSep "\n" (s.clarification_answers.map (fun kv => kv.1 ++ ": " ++ kv.2))

/-- `clarification_node`: fall through when no clarification is required;
pause when answers are absent; otherwise stitch the answers onto the
question and re-plan, replacing the plan and resetting execution state.
The re-plan call is not guarded by a handler, so a planner exception
propagates (the `.error` case). -/
def clarification_node (vocab : Vocab)
    (oracle : String → Except String PlannerOutput)
    (s : PlanExecuteState) : Except String PlanExecuteState :=
  if !s.requires_clarification then
    .ok { s with clarification_needed := false }
  else if s.clarification_answers.isEmpty then
    .ok { s with clarification_needed := true }
  else
    match plannerPlan vocab oracle (replanQuery s) with
    | .error e => .error e
    | .ok np =>
      .ok { s with
        workplan := np.workplan,
        current_step_index := 0,
        step_results := [],
        sql_queries := [],
        ambiguities := np.ambiguities,
        requires_clarification := !np.ambiguities.isEmpty,
        clarification_needed := !np.ambiguities.isEmpty }

/-- Router target after the clarify node. -/
inductive ClarifyRoute where
  | haltAtEND
  | toExecuteStep
deriving DecidableEq, Repr

/-- `after_clarify` of `workflow.py`: END when clarifications are pending,
else the execution loop. -/
def after_clarify (s : PlanExecuteState) : ClarifyRoute :=
  if s.clarification_needed then .haltAtEND else .toExecuteStep

/-- `execute_step_node`: run the current step, record its result under the
step id, append its SQL when non-empty, advance the cursor.
(`executor.execute_step` has a catch-all handler and cannot raise, so the
node's own exception branch is dead.) -/
def execute_step_node (eff : ExecEffects) (s : PlanExecuteState) :
    PlanExecuteState :=
  if _h : s.workplan.length ≤ s.current_step_index then
    { s with success := true }
  else
    let step := s.workplan.get ⟨s.current_step_index, by omega⟩
    let result := execute_step eff step s.step_results
    let step_results := dictInsert s.step_results step.id result
    let sql_queries :=
      match result.sql with
      | some q => if q = "" then s.sql_queries else s.sql_queries ++ [q]
      | none => s.sql_queries
    { s with
      past_steps := s.past_steps ++ [(step.id, result)],
      current_step_index := s.current_step_index + 1,
      step_results := step_results,
      sql_queries := sql_queries,
      success := result.success,
      error := if result.success then none else result.error }

/-- Router target after one execution step. -/
inductive ExecRoute where
  | toExecuteStep
  | toAggregate
deriving DecidableEq, Repr

/-- `after_execute` of `workflow.py`: aggregate once the cursor reaches the
plan length, else loop. -/
def after_execute (s : PlanExecuteState) : ExecRoute :=
  if s.workplan.length ≤ s.current_step_index then .toAggregate
  else .toExecuteStep

theorem execute_step_node_workplan (eff : ExecEffects) (s : PlanExecuteState) :
    (execute_step_node eff s).workplan = s.workplan := by
  unfold execute_step_node
  split <;> rfl

theorem execute_step_node_index (eff : ExecEffects) (s : PlanExecuteState)
    (h : s.current_step_index < s.workplan.length) :
    (execute_step_node eff s).current_step_index = s.current_step_index + 1 := by
  unfold execute_step_node
  rw [dif_neg (by omega)]

/-- The `execute_step → execute_step` loop of the compiled graph, driven by
`after_execute`. -/
def executeLoop (eff : ExecEffects) (s : PlanExecuteState) : PlanExecuteState :=
  if h : s.current_step_index < s.workplan.length then
    executeLoop eff (execute_step_node eff s)
  else s
  termination_by s.workplan.length - s.current_step_index
  decreasing_by
    rw [execute_step_node_workplan, execute_step_node_index eff s h]
    omega

/-- `aggregate_results_node`: the report text (whose rendering is
abstracted; no claim concerns it), the last executed SQL, and overall
success — the conjunction of the recorded per-step successes, `False` when
no step result exists. -/
def aggregate_results_node (render : PlanExecuteState → String)
    (s : PlanExecuteState) : PlanExecuteState :=
  { s with
    final_response := render s,
    sql_query := s.sql_queries.getLast?,
    success :=
      if s.step_results.isEmpty then false
      else s.step_results.all (fun kv => kv.2.success) }

/-! ### Pure characterization of the execution loop -/

/-- Folding the executor over a step list, threading the results dict as
`execute_step_node` does. -/
def runSteps (eff : ExecEffects) : List WorkplanStep → ResultsDict → ResultsDict
  | [], acc => acc
  | st :: rest, acc =>
    runSteps eff rest (dictInsert acc st.id (execute_step eff st acc))

/-- The per-step results produced by the loop, one entry per step in plan
order (meaningful when ids are fresh with respect to `acc`). -/
def freshRun (eff : ExecEffects) : List WorkplanStep → ResultsDict → ResultsDict
  | [], _ => []
  | st :: rest, acc =>
    (st.id, execute_step eff st acc) ::
      freshRun eff rest (acc ++ [(st.id, execute_step eff st acc)])

/-- The message of the exception raised (if any) while executing one step:
a database error surfaces wrapped by `_execute_sql`, a rank step over a
failed dependency raises inside the generator, delegated steps surface the
agent's exception. `none` means the step's execution raised nothing. -/
def stepRaisedMsg (eff : ExecEffects) (step : WorkplanStep)
    (prev : ResultsDict) : Option String :=
  let context := buildContext step prev
  if step.type = "filter" then
    match eff.exec_sql (generate_filter_sql step) with
    | .error m => some (sqlErrorMsg m (generate_filter_sql step))
    | .ok _ => none
  else if step.type = "aggregate" then
    match eff.exec_sql (generate_aggregate_sql step) with
    | .error m => some (sqlErrorMsg m (generate_aggregate_sql step))
    | .ok _ => none
  else if step.type = "calculate" then
    match eff.exec_sql (generate_calculate_sql eff.pyStr step context) with
    | .error m => some (sqlErrorMsg m (generate_calculate_sql eff.pyStr step context))
    | .ok _ => none
  else if step.type = "rank" then
    match generate_rank_sql step context with
    | .error m => some m
    | .ok sql =>
      match eff.exec_sql sql with
      | .error m => some (sqlErrorMsg m sql)
      | .ok _ => none
  else
    match eff.agent_ask (agentQuery step context) with
    | .error m => some m
    | .ok _ => none

/-! ### Generated fragments are non-empty (the `if sql:` guard passes) -/

theorem str_append_ne_empty (a b : String) (ha : a ≠ "") : a ++ b ≠ "" := by
  intro h
  apply ha
  have hd : a.data ++ b.data = ([] : List Char) := by
    rw [← String.data_append, h]
  have h2 := List.append_eq_nil.mp hd
  cases a with
  | mk l =>
    cases h2.1
    rfl

theorem ite_ne_empty {c : Prop} [Decidable c] {A B : String}
    (hA : A ≠ "") (hB : B ≠ "") : (if c then A else B) ≠ "" := by
  split <;> assumption

theorem filterBase_ne_empty (step : WorkplanStep) : filterBase step ≠ "" := by
  unfold filterBase
  cases step.depends_on with
  | nil =>
    repeat apply str_append_ne_empty
    decide
  | cons d rest =>
    repeat apply str_append_ne_empty
    decide

theorem generate_filter_sql_ne_empty (step : WorkplanStep) :
    generate_filter_sql step ≠ "" := by
  simp only [generate_filter_sql]
  apply ite_ne_empty <;> (repeat apply str_append_ne_empty)
  all_goals first
    | decide
    | exact filterBase_ne_empty step

theorem generate_aggregate_sql_ne_empty (step : WorkplanStep) :
    generate_aggregate_sql step ≠ "" := by
  simp only [generate_aggregate_sql]
  apply ite_ne_empty <;> (repeat apply str_append_ne_empty) <;> decide

theorem generate_calculate_sql_ne_empty (pyStr : ResultsDict → String)
    (step : WorkplanStep) (context : ResultsDict) :
    generate_calculate_sql pyStr step context ≠ "" := by
  simp only [generate_calculate_sql]
  apply ite_ne_empty
  · repeat apply str_append_ne_empty
    decide
  · apply ite_ne_empty <;> (repeat apply str_append_ne_empty) <;> decide

theorem rankAssemble_ne_empty (step : WorkplanStep) (source order_by q : String) :
    rankAssemble step source order_by q ≠ "" := by
  unfold rankAssemble
  repeat apply str_append_ne_empty
  decide

/-! ### The execution loop visits every remaining step -/

theorem execute_step_node_results (eff : ExecEffects) (s : PlanExecuteState)
    (h : s.current_step_index < s.workplan.length) :
    (execute_step_node eff s).step_results
      = dictInsert s.step_results (s.workplan.get ⟨s.current_step_index, h⟩).id
          (execute_step eff (s.workplan.get ⟨s.current_step_index, h⟩)
            s.step_results) := by
  unfold execute_step_node
  rw [dif_neg (by omega)]

theorem executeLoop_spec (eff : ExecEffects) :
    ∀ (n : Nat) (s : PlanExecuteState),
      s.workplan.length - s.current_step_index = n →
      s.current_step_index ≤ s.workplan.length →
      (executeLoop eff s).workplan = s.workplan
      ∧ (executeLoop eff s).current_step_index = s.workplan.length
      ∧ (executeLoop eff s).step_results
          = runSteps eff (s.workplan.drop s.current_step_index) s.step_results := by
  intro n
  induction n with
  | zero =>
    intro s hn hle
    have hidx : s.current_step_index = s.workplan.length := by omega
    rw [executeLoop, dif_neg (by omega)]
    refine ⟨rfl, hidx, ?_⟩
    rw [hidx, List.drop_length]
    rfl
  | succ k ih =>
    intro s hn hle
    have hlt : s.current_step_index < s.workplan.length := by omega
    rw [executeLoop, dif_pos hlt]
    have hw := execute_step_node_workplan eff s
    have hi := execute_step_node_index eff s hlt
    have hr := execute_step_node_results eff s hlt
    have hmeasure : (execute_step_node eff s).workplan.length
        - (execute_step_node eff s).current_step_index = k := by
      rw [hw, hi]; omega
    have hle' : (execute_step_node eff s).current_step_index
        ≤ (execute_step_node eff s).workplan.length := by
      rw [hw, hi]; omega
    obtain ⟨w, i, r⟩ := ih (execute_step_node eff s) hmeasure hle'
    refine ⟨by rw [w, hw], by rw [i, hw], ?_⟩
    rw [r, hw, hi, hr]
    rw [List.drop_eq_getElem_cons hlt]
    rfl

/-! ### With unique step ids the loop records exactly one result per step -/

theorem dictInsert_fresh (m : ResultsDict) (k : String) (v : StepExecutionResult)
    (h : m.any (fun kv => kv.1 == k) = false) :
    dictInsert m k v = m ++ [(k, v)] := by
  unfold dictInsert
  rw [if_neg (by simp [h])]

theorem runSteps_fresh (eff : ExecEffects) :
    ∀ (steps : List WorkplanStep) (acc : ResultsDict),
      (∀ st ∈ steps, acc.any (fun kv => kv.1 == st.id) = false) →
      (steps.map (fun st => st.id)).Nodup →
      runSteps eff steps acc = acc ++ freshRun eff steps acc := by
  intro steps
  induction steps with
  | nil => intro acc _ _; simp [runSteps, freshRun]
  | cons st rest ih =>
    intro acc hfresh hnodup
    have hst := hfresh st (List.mem_cons_self st rest)
    rw [runSteps, freshRun, dictInsert_fresh _ _ _ hst]
    have hcons : (st.id :: rest.map (fun s => s.id)).Nodup := by
      simpa using hnodup
    have hnotmem : st.id ∉ rest.map (fun s => s.id) :=
      (List.nodup_cons.mp hcons).1
    have hnodup' : (rest.map (fun s => s.id)).Nodup :=
      (List.nodup_cons.mp hcons).2
    have hne : ∀ st' ∈ rest, st'.id ≠ st.id := by
      intro st' hmem heq
      exact hnotmem (heq ▸ List.mem_map_of_mem (fun s => s.id) hmem)
    have hfresh' : ∀ st' ∈ rest,
        (acc ++ [(st.id, execute_step eff st acc)]).any
          (fun kv => kv.1 == st'.id) = false := by
      intro st' hmem
      rw [List.any_append]
      simp only [Bool.or_eq_false_iff]
      refine ⟨hfresh st' (List.mem_cons_of_mem st hmem), ?_⟩
      simp only [List.any_cons, List.any_nil, Bool.or_false, beq_eq_false_iff_ne]
      exact Ne.symm (hne st' hmem)
    rw [ih (acc ++ [(st.id, execute_step eff st acc)]) hfresh' hnodup']
    simp [List.append_assoc]

theorem freshRun_keys (eff : ExecEffects) :
    ∀ (steps : List WorkplanStep) (acc : ResultsDict),
      (freshRun eff steps acc).map (fun kv => kv.1)
        = steps.map (fun st => st.id) := by
  intro steps
  induction steps with
  | nil => intro acc; rfl
  | cons st rest ih => intro acc; simp [freshRun, ih]

theorem freshRun_ne_nil (eff : ExecEffects) (steps : List WorkplanStep)
    (acc : ResultsDict) (h : steps ≠ []) : freshRun eff steps acc ≠ [] := by
  cases steps with
  | nil => exact absurd rfl h
  | cons st rest => simp [freshRun]

/-! ## SQL semantics of the generated calculation formulas

`_generate_calculate_sql` draws its formula column from a fixed set of ten
fragments.  Their SQL evaluation over one group is modelled here:
`NULLIF(d, 0)` is NULL when `d = 0`, and any arithmetic involving NULL is
NULL, so a result is `Option ℚ` — by construction there is no exception
and no infinity.  `actual` is the aggregated numerator column, `target`
the aggregated target column, `prior` the aggregated last-year column. -/

structure CalcEnv where
  actual : ℚ
  target : ℚ
  prior : ℚ
deriving DecidableEq, Repr

/-- Modelled SQL evaluation of one generated formula fragment over a group. -/
def evalCalculation (c : String) (env : CalcEnv) : Option ℚ :=
  match c with
  | "(total_secondary_value / NULLIF(total_target_value, 0)) * 100 as achievement_pct"
  | "(SUM(Sec_Value) / NULLIF(SUM(Tgt_Value), 0)) * 100 as achievement_pct"
  | "(total_primary_value / NULLIF(total_target_value, 0)) * 100 as achievement_pct"
  | "(SUM(Prim_Value) / NULLIF(SUM(Tgt_Value), 0)) * 100 as achievement_pct" =>
    if env.target = 0 then none else some (env.actual / env.target * 100)
  | "((SUM(Prim_Value) - SUM(LY_Prim_Value)) / NULLIF(SUM(LY_Prim_Value), 0)) * 100 as growth_pct"
  | "((SUM(Sec_Value) - SUM(LY_Sec_Value)) / NULLIF(SUM(LY_Sec_Value), 0)) * 100 as growth_pct" =>
    if env.prior = 0 then none else some ((env.actual - env.prior) / env.prior * 100)
  | "total_target_value - total_primary_value as performance_gap"
  | "SUM(Tgt_Value) - SUM(Prim_Value) as performance_gap" =>
    some (env.target - env.actual)
  | "total_primary_value as value"
  | "SUM(Prim_Value) as value" =>
    some env.actual
  | _ => none

/-- The value of a fragment's guarded denominator; `none` for the fragments
without a division (gap and the default). -/
def calcDenominator (c : String) (env : CalcEnv) : Option ℚ :=
  match c with
  | "(total_secondary_value / NULLIF(total_target_value, 0)) * 100 as achievement_pct"
  | "(SUM(Sec_Value) / NULLIF(SUM(Tgt_Value), 0)) * 100 as achievement_pct"
  | "(total_primary_value / NULLIF(total_target_value, 0)) * 100 as achievement_pct"
  | "(SUM(Prim_Value) / NULLIF(SUM(Tgt_Value), 0)) * 100 as achievement_pct" =>
    some env.target
  | "((SUM(Prim_Value) - SUM(LY_Prim_Value)) / NULLIF(SUM(LY_Prim_Value), 0)) * 100 as growth_pct"
  | "((SUM(Sec_Value) - SUM(LY_Sec_Value)) / NULLIF(SUM(LY_Sec_Value), 0)) * 100 as growth_pct" =>
    some env.prior
  | _ => none

/-- C5: for every formula the calculate-step compiler can generate —
achievement, growth, gap and the default — a zero denominator makes the
evaluated result NULL (`none`), not an exception and not infinity: every
division is guarded by `NULLIF(_, 0)`.  In particular an achievement
calculation over a group with target 0 yields NULL rather than a crash. -/
theorem calculate_zero_denominator_yields_null
    (q : String) (metric : ParamVal) (has_agg : Bool) (env : CalcEnv) (d : ℚ)
    (hden : calcDenominator (calcCalculation q metric has_agg) env = some d)
    (hzero : d = 0) :
    evalCalculation (calcCalculation q metric has_agg) env = none := by
  subst hzero
  unfold calcCalculation at hden ⊢
  split_ifs at hden ⊢ <;>
    simp_all [evalCalculation, calcDenominator]

/-- Concrete instance of C5: an achievement question compiled without
pre-aggregated upstream columns, evaluated over a group whose target sums
to zero, yields NULL. -/
theorem calculate_zero_denominator_yields_null_witness :
    calcDenominator
        (calcCalculation "achievement" (ParamVal.str "") false)
        ⟨7, 0, 3⟩ = some 0
    ∧ evalCalculation
        (calcCalculation "achievement" (ParamVal.str "") false)
        ⟨7, 0, 3⟩ = none :=
  ⟨by decide, calculate_zero_denominator_yields_null
      "achievement" (ParamVal.str "") false ⟨7, 0, 3⟩ 0 (by decide) rfl⟩

/-! ## Claim theorems on the clarification flow -/

/-- C1: after a plan produced by the planning node, and after a re-plan
produced by the Clarification Gate once answers are supplied, the state's
`requires_clarification` flag is true iff the state's ambiguity list is
non-empty — it is derived from that list, never set independently. -/
theorem requires_clarification_iff_ambiguities_nonempty
    (vocab : Vocab) (oracle : String → Except String PlannerOutput)
    (s s' : PlanExecuteState) (po : PlannerOutput)
    (hplan : plannerPlan vocab oracle s.input = Except.ok po)
    (hreq : s.requires_clarification = true)
    (hans : s.clarification_answers ≠ [])
    (hgate : clarification_node vocab oracle s = Except.ok s') :
    ((planning_node vocab oracle s).requires_clarification
        = !(planning_node vocab oracle s).ambiguities.isEmpty)
    ∧ (s'.requires_clarification = !s'.ambiguities.isEmpty) := by
  constructor
  · simp [planning_node, hplan]
  · have hempty : s.clarification_answers.isEmpty = false := by
      simpa [List.isEmpty_iff] using hans
    cases hpp : plannerPlan vocab oracle (replanQuery s) with
    | error e =>
      rw [clarification_node, if_neg (by simp [hreq]), if_neg (by simp [hempty]),
        hpp] at hgate
      cases hgate
    | ok np =>
      rw [clarification_node, if_neg (by simp [hreq]), if_neg (by simp [hempty]),
        hpp] at hgate
      cases hgate
      simp

/-- Planner oracle for the C1 witness: an external call that always returns
an empty plan with no ambiguities. -/
def oracleC1 : String → Except String PlannerOutput :=
  fun _ => Except.ok { workplan := [] }

/-- State for the C1 witness: the question "sales" (statically ambiguous),
one supplied answer, clarification required. -/
def stateC1 : PlanExecuteState :=
  { initialState "sales" [("k", "v")] with requires_clarification := true }

/-- The state the Clarification Gate produces from `stateC1` by
re-planning. -/
def gateResultC1 : PlanExecuteState :=
  { stateC1 with
    workplan := [], current_step_index := 0, step_results := [],
    sql_queries := [],
    ambiguities := ["When you say 'sales': Primary or Secondary? Value or Units?"],
    requires_clarification := true, clarification_needed := true }

/-- Concrete run of C1: the flag matches the ambiguity list both after
planning and after the answered re-plan. -/
theorem requires_clarification_iff_ambiguities_nonempty_witness :
    ((planning_node [] oracleC1 stateC1).requires_clarification
        = !(planning_node [] oracleC1 stateC1).ambiguities.isEmpty)
    ∧ gateResultC1.requires_clarification = !gateResultC1.ambiguities.isEmpty := by
  exact requires_clarification_iff_ambiguities_nonempty [] oracleC1 stateC1
    gateResultC1
    { workplan := [],
      ambiguities := ["When you say 'sales': Primary or Secondary? Value or Units?"] }
    (by rfl) rfl (by decide) (by rfl)

/-- C8: when `requires_clarification` is true and no answers were supplied,
the Clarification Gate only raises the `clarification_needed` flag — the
workplan, the cursor, the step results, the past steps, the success flag
and the error are untouched — and the router sends the run to END: a
paused outcome distinct from success and from failure. -/
theorem clarification_pause_preserves_state
    (vocab : Vocab) (oracle : String → Except String PlannerOutput)
    (s s' : PlanExecuteState)
    (hreq : s.requires_clarification = true)
    (hans : s.clarification_answers = [])
    (hgate : clarification_node vocab oracle s = Except.ok s') :
    s' = { s with clarification_needed := true }
    ∧ s'.workplan = s.workplan
    ∧ s'.current_step_index = s.current_step_index
    ∧ s'.step_results = s.step_results
    ∧ s'.past_steps = s.past_steps
    ∧ s'.success = s.success
    ∧ s'.error = s.error
    ∧ s'.clarification_needed = true
    ∧ after_clarify s' = ClarifyRoute.haltAtEND := by
  rw [clarification_node, if_neg (by simp [hreq]), if_pos (by simp [hans])] at hgate
  cases hgate
  refine ⟨rfl, rfl, rfl, rfl, rfl, rfl, rfl, rfl, ?_⟩
  rfl

/-- State for the C8 witness: one pending ambiguity, no answers. -/
def stateC8 : PlanExecuteState :=
  { initialState "q" [] with
    requires_clarification := true, ambiguities := ["amb"] }

/-- The paused state the gate produces from `stateC8`. -/
def pausedC8 : PlanExecuteState :=
  { stateC8 with clarification_needed := true }

/-- Concrete run of C8: a paused state is produced unchanged except for the
flag, and routed to END. -/
theorem clarification_pause_preserves_state_witness :
    (clarification_node [] (fun _ => Except.error "unused") stateC8
        = Except.ok pausedC8)
    ∧ after_clarify pausedC8 = ClarifyRoute.haltAtEND := by
  have h := clarification_pause_preserves_state
    [] (fun _ => Except.error "unused") stateC8 pausedC8 rfl rfl (by rfl)
  exact ⟨by rfl, h.2.2.2.2.2.2.2.2⟩

/-- C9: on a state with `requires_clarification = false` the Clarification
Gate is a no-op regardless of the supplied answers — workplan, cursor,
step results and ambiguity list are unchanged — and applying it twice
yields the same state as applying it once. -/
theorem clarification_gate_noop_idempotent
    (vocab : Vocab) (oracle : String → Except String PlannerOutput)
    (s : PlanExecuteState)
    (hreq : s.requires_clarification = false) :
    clarification_node vocab oracle s
        = Except.ok { s with clarification_needed := false }
    ∧ ({ s with clarification_needed := false } : PlanExecuteState).workplan
        = s.workplan
    ∧ ({ s with clarification_needed := false } : PlanExecuteState).current_step_index
        = s.current_step_index
    ∧ ({ s with clarification_needed := false } : PlanExecuteState).step_results
        = s.step_results
    ∧ ({ s with clarification_needed := false } : PlanExecuteState).ambiguities
        = s.ambiguities
    ∧ clarification_node vocab oracle { s with clarification_needed := false }
        = Except.ok { s with clarification_needed := false } := by
  refine ⟨?_, rfl, rfl, rfl, rfl, ?_⟩
  · rw [clarification_node, if_pos (by simp [hreq])]
  · rw [clarification_node, if_pos (by simp [hreq])]

/-- Concrete run of C9: non-empty answers, no clarification required — the
gate leaves the state alone twice over. -/
theorem clarification_gate_noop_idempotent_witness :
    clarification_node [] (fun _ => Except.error "unused")
        (initialState "q" [("k", "v")])
      = Except.ok { initialState "q" [("k", "v")] with clarification_needed := false } :=
  (clarification_gate_noop_idempotent [] (fun _ => Except.error "unused")
    (initialState "q" [("k", "v")]) rfl).1

/-- C10: when the aggregation stage runs with an empty step-results mapping
(for instance a zero-step workplan), overall success is reported false even
though no individual step failed. -/
theorem aggregate_empty_results_failure
    (render : PlanExecuteState → String) (s : PlanExecuteState)
    (h : s.step_results = []) :
    (aggregate_results_node render s).success = false := by
  simp [aggregate_results_node, h]

/-- Concrete run of C10: aggregating a fresh state with no step results. -/
theorem aggregate_empty_results_failure_witness :
    (aggregate_results_node (fun _ => "") (initialState "q" [])).success = false :=
  aggregate_empty_results_failure (fun _ => "") (initialState "q" []) rfl

/-! ## Claim theorems on the Plan Builder -/

/-- A structurally invalid step: an unknown type and a dependency on an id
that appears nowhere in the plan. -/
def danglingStep : WorkplanStep :=
  { id := "step_1", type := "mystery_op", depends_on := ["step_0"],
    question := "do the thing", params := [] }

/-- External call that returns the structurally invalid plan. -/
def oracleC2 : String → Except String PlannerOutput :=
  fun _ => Except.ok { workplan := [danglingStep] }

/-- C2 counterexample: the Plan Builder performs no structural validation.
An external result whose only step has an unknown type and a `depends_on`
id that appears nowhere earlier is accepted without error (no
`PlanningError` exists in the code base), the planning node reports
success, and the router sends the plan on to execution. -/
theorem plan_build_accepts_invalid_steps :
    plannerPlan [] oracleC2 "do the thing"
        = Except.ok { workplan := [danglingStep], ambiguities := [] }
    ∧ danglingStep.depends_on = ["step_0"]
    ∧ ([danglingStep].map (fun st => st.id)).contains "step_0" = false
    ∧ (planning_node [] oracleC2 (initialState "do the thing" [])).success = true
    ∧ (planning_node [] oracleC2 (initialState "do the thing" [])).workplan
        = [danglingStep]
    ∧ (clarification_node [] oracleC2
          (planning_node [] oracleC2 (initialState "do the thing" []))).map
        after_clarify
        = Except.ok ClarifyRoute.toExecuteStep := by
  refine ⟨by rfl, rfl, by rfl, by rfl, by rfl, by rfl⟩

/-- C2 (amended): a plan build fails exactly when the external
understanding call raises or its output fails structured-output field
validation (both modelled by the oracle erroring); in that case the
planning node accepts no partial plan — it reports failure with an empty
workplan and the error message.  Step-type and dependency validation is
not performed (see the counterexample). -/
theorem plan_build_fails_iff_external_call_fails
    (vocab : Vocab) (oracle : String → Except String PlannerOutput)
    (query : String) (s : PlanExecuteState) (e : String)
    (hq : s.input = query)
    (herr : plannerPlan vocab oracle query = Except.error e) :
    (oracle (enhance_query_with_context query)).isOk = false
    ∧ (∀ po, oracle (enhance_query_with_context query) = Except.ok po →
        (plannerPlan vocab oracle query).isOk = true)
    ∧ (planning_node vocab oracle s).workplan = []
    ∧ (planning_node vocab oracle s).success = false
    ∧ (planning_node vocab oracle s).error = some ("Planning failed: " ++ e) := by
  subst hq
  cases hor : oracle (enhance_query_with_context s.input) with
  | error e' =>
    refine ⟨rfl, ?_, ?_, ?_, ?_⟩
    · intro po hpo; cases hpo
    all_goals
      rw [plannerPlan, hor] at herr
      cases herr
      simp [planning_node, plannerPlan, hor]
  | ok po =>
    rw [plannerPlan, hor] at herr
    cases herr

/-- Concrete run of the amended C2: an external call that raises makes the
build fail and the planning node reject the whole plan. -/
theorem plan_build_fails_iff_external_call_fails_witness :
    plannerPlan [] (fun _ => Except.error "boom") "list items"
        = Except.error "boom"
    ∧ (planning_node [] (fun _ => Except.error "boom")
        (initialState "list items" [])).workplan = []
    ∧ (planning_node [] (fun _ => Except.error "boom")
        (initialState "list items" [])).success = false := by
  have h := plan_build_fails_iff_external_call_fails
    [] (fun _ => Except.error "boom") "list items"
    (initialState "list items" []) "boom" rfl (by rfl)
  exact ⟨by rfl, h.2.2.1, h.2.2.2.1⟩

/-- External call for the C3 counterexample: it reports one ambiguity of
its own. -/
def oracleC3 : String → Except String PlannerOutput :=
  fun _ => Except.ok { workplan := [], ambiguities := ["Which year do you mean?"] }

/-- C3 counterexample: for a question with no statically detected
ambiguity, the ambiguity the external call returned is discarded — the
result's ambiguity list is empty, not a union containing
"Which year do you mean?". -/
theorem static_ambiguities_discard_external :
    plannerPlan [] oracleC3 "show items"
      = Except.ok { workplan := [], ambiguities := [] } := by
  rfl

/-- C3 (amended): the Plan Builder uses the synthesized step sequence
as-is, but its ambiguity list is exactly the statically detected list —
the external call's ambiguities are overwritten (discarded), not unioned. -/
theorem planner_ambiguities_are_static_only
    (vocab : Vocab) (oracle : String → Except String PlannerOutput)
    (query : String) (po : PlannerOutput)
    (h : oracle (enhance_query_with_context query) = Except.ok po) :
    plannerPlan vocab oracle query
      = Except.ok {
          workplan := po.workplan
          ambiguities := detect_ambiguities vocab query } := by
  rw [plannerPlan, h]

/-- Concrete run of the amended C3: the external ambiguity is replaced by
the statically detected one. -/
theorem planner_ambiguities_are_static_only_witness :
    plannerPlan [] oracleC3 "how is sales doing"
      = Except.ok {
          workplan := []
          ambiguities :=
            ["When you say 'sales': Primary or Secondary? Value or Units?"] } := by
  have h := planner_ambiguities_are_static_only [] oracleC3 "how is sales doing"
    { workplan := [], ambiguities := ["Which year do you mean?"] } (by rfl)
  rw [h]
  rfl

/-! ## Claim theorems on the Step Compiler -/

theorem joinSep_cons_exists (sep x : String) (l : List String) :
    ∃ t, joinSep sep (x :: l) = x ++ t := by
  cases l with
  | nil => exact ⟨"", by simp [joinSep]⟩
  | cons y ys =>
    exact ⟨sep ++ joinSep sep (y :: ys), by rw [joinSep, String.append_assoc]⟩

/-- A filter step whose question asks for a total and carries no params:
the claim predicts a fragment without the month exclusion. -/
def totalsOnlyStep : WorkplanStep :=
  { id := "step_1", type := "filter", depends_on := [],
    question := "total", params := [] }

/-- C6 counterexample: this totals question produces no WHERE condition at
all, and the compiler's fallback query still contains the `Mth != 'All'`
exclusion — contradicting "compiling one whose question requests totals
yields a fragment without it". -/
theorem totals_question_still_excludes_all_month :
    strContains (lowerStr totalsOnlyStep.question) "total" = true
    ∧ filterConditions totalsOnlyStep = []
    ∧ strContains (generate_filter_sql totalsOnlyStep) "Mth != 'All'" = true := by
  exact ⟨by rfl, by rfl, by rfl⟩

/-- C6 (amended): the month exclusion is appended as a WHERE condition iff
the lowercased question contains neither the quoted literal `'all'` nor
the substring `total`; when it is appended the emitted fragment contains
it; but when no condition at all survives, the fallback query excludes
`Mth = 'All'` regardless — so a bare totals question still gets the
exclusion (see the counterexample). -/
theorem filter_month_exclusion_rule (step : WorkplanStep) :
    (strContains (lowerStr step.question) "'all'" = false →
      strContains (lowerStr step.question) "total" = false →
      "Mth != 'All'" ∈ filterConditions step
        ∧ strContains (generate_filter_sql step) "Mth != 'All'" = true)
    ∧ (monthNotAllCond (lowerStr step.question) = []
        ↔ (strContains (lowerStr step.question) "'all'" = true
            ∨ strContains (lowerStr step.question) "total" = true))
    ∧ (filterConditions step = [] →
        generate_filter_sql step
          = "WITH " ++ step.id
            ++ " AS (\n  SELECT * FROM analyzer\n  WHERE Mth != 'All'\n)\nSELECT * FROM "
            ++ step.id) := by
  refine ⟨?_, ?_, ?_⟩
  · intro h1 h2
    have hmna : monthNotAllCond (lowerStr step.question) = ["Mth != 'All'"] := by
      unfold monthNotAllCond
      rw [if_pos (by simp [h1, h2])]
    have hcond : ∃ rest, filterConditions step = "Mth != 'All'" :: rest := by
      refine ⟨filterParamConds step.params
        ++ delhiFallback (lowerStr step.question) step.params
        ++ monthFallback (lowerStr step.question) step.params, ?_⟩
      rw [filterConditions, hmna]
      simp
    obtain ⟨rest, hcond⟩ := hcond
    constructor
    · rw [hcond]; exact List.mem_cons_self _ _
    · obtain ⟨t, hjoin⟩ := joinSep_cons_exists " AND " "Mth != 'All'" rest
      have hne : (filterConditions step).isEmpty = false := by
        rw [hcond]; rfl
      rw [generate_filter_sql]
      simp only [hne, Bool.false_eq_true, if_false]
      apply strContains_append_left
      apply strContains_append_left
      apply strContains_append_right
      rw [hcond, hjoin]
      exact strContains_self_append _ _
  · cases ha : strContains (lowerStr step.question) "'all'" <;>
      cases ht : strContains (lowerStr step.question) "total" <;>
        simp [monthNotAllCond, ha, ht]
  · intro h
    rw [generate_filter_sql]
    simp [h]

/-- A filter step with no month constraint and no totals language. -/
def plainFilterStep : WorkplanStep :=
  { id := "step_1", type := "filter", depends_on := [],
    question := "give me everything in delhi", params := [] }

/-- Concrete run of the amended C6: a question with no totals language and
no quoted 'all' always gets the month exclusion in its fragment. -/
theorem filter_month_exclusion_rule_witness :
    strContains (generate_filter_sql plainFilterStep) "Mth != 'All'" = true :=
  ((filter_month_exclusion_rule plainFilterStep).1 (by rfl) (by rfl)).2

/-- A rank step over the base table whose question names growth: the claim
predicts a fallback ordering by the primary value. -/
def growthRankStep : WorkplanStep :=
  { id := "s1", type := "rank", depends_on := [],
    question := "rank brands by growth", params := [] }

/-- C7 counterexample: with no upstream alias available the compiler does
not fall back to the primary value — the question keyword `growth` wins
and the fragment orders by `growth_pct`. -/
theorem rank_question_fallback_not_primary :
    generate_rank_sql growthRankStep []
      = Except.ok ("WITH s1 AS (\n  SELECT *\n  FROM analyzer\n  ORDER BY growth_pct DESC\n  LIMIT 5\n)\nSELECT * FROM s1") := by
  rfl

/-- C7 (amended): the rank compiler orders by the upstream alias scan
(`achievement_pct` > `growth_pct` > `total_secondary_value` >
`total_primary_value` > `performance_gap`) when the upstream step's
recorded SQL exposes one; with no upstream result it falls back to
question keywords (growth → `growth_pct`, etc.), defaulting to
`total_primary_value`; the direction is ASC exactly when none of
top/highest/best occurs and one of bottom/lowest/worst/underperform does,
else DESC; and the ORDER BY / direction / LIMIT (first integer literal,
else 5) all appear verbatim in the fragment. -/
theorem rank_order_direction_limit_rule
    (step : WorkplanStep) (context : ResultsDict) :
    (∀ r up, dictGet context (rankSource step) = some r → r.sql = some up →
      generate_rank_sql step context
        = Except.ok (rankAssemble step (rankSource step)
            (rankOrderBy (lowerStr step.question)
              (rankUpstreamOrderBy (lowerStr up)))
            (lowerStr step.question)))
    ∧ (dictGet context (rankSource step) = none →
      generate_rank_sql step context
        = Except.ok (rankAssemble step (rankSource step)
            (rankQuestionOrderBy (lowerStr step.question))
            (lowerStr step.question)))
    ∧ (∀ q2, rankDirection q2 = "ASC"
        ↔ ((strContains q2 "top" || strContains q2 "highest"
              || strContains q2 "best") = false
            ∧ (strContains q2 "bottom" || strContains q2 "lowest"
              || strContains q2 "worst" || strContains q2 "underperform") = true))
    ∧ (∀ src ob q2, strContains (rankAssemble step src ob q2)
        ("  ORDER BY " ++ ob ++ " " ++ rankDirection q2 ++ "\n"
          ++ "  LIMIT " ++ toString (rankLimit q2)) = true)
    ∧ (∀ ps, strContains ps "achievement_pct" = true →
        rankUpstreamOrderBy ps = some "achievement_pct")
    ∧ (∀ q2, strContains q2 "achievement" = false →
        strContains q2 "growth" = true →
        rankQuestionOrderBy q2 = "growth_pct") := by
  refine ⟨?_, ?_, ?_, ?_, ?_, ?_⟩
  · intro r up h1 h2
    simp only [generate_rank_sql, h1, h2]
  · intro h1
    simp only [generate_rank_sql, h1]
    rfl
  · intro q2
    cases hb1 : (strContains q2 "top" || strContains q2 "highest"
        || strContains q2 "best") <;>
      cases hb2 : (strContains q2 "bottom" || strContains q2 "lowest"
          || strContains q2 "worst" || strContains q2 "underperform") <;>
        simp [rankDirection, hb1, hb2]
  · intro src ob q2
    unfold strContains
    have hn : ("  ORDER BY " ++ ob ++ " " ++ rankDirection q2 ++ "\n"
          ++ "  LIMIT " ++ toString (rankLimit q2)).data
        = "  ORDER BY ".data ++ (ob.data ++ (" ".data ++ ((rankDirection q2).data
            ++ ("\n".data ++ ("  LIMIT ".data
              ++ (toString (rankLimit q2)).data))))) := by
      simp [String.data_append]
    have hh : (rankAssemble step src ob q2).data
        = ("WITH ".data ++ (step.id.data ++ (" AS (\n".data ++ ("  SELECT *\n".data
              ++ ("  FROM ".data ++ (src.data ++ "\n".data))))))
          ++ (("  ORDER BY ".data ++ (ob.data ++ (" ".data ++ ((rankDirection q2).data
                ++ ("\n".data ++ ("  LIMIT ".data
                  ++ (toString (rankLimit q2)).data))))))
            ++ ("\n".data ++ (")\nSELECT * FROM ".data ++ step.id.data))) := by
      simp [rankAssemble, String.data_append]
    rw [hn, hh]
    exact hasRun_append_right _ (hasRun_self_append _ _)
  · intro ps h
    rw [rankUpstreamOrderBy, if_pos h]
  · intro q2 h1 h2
    rw [rankQuestionOrderBy]
    simp [h1, h2]

/-- The rank step of the spec's scenario. -/
def topBrandsStep : WorkplanStep :=
  { id := "s2", type := "rank", depends_on := [],
    question := "Show me top 5 brands by secondary sales value", params := [] }

/-- Concrete run of the amended C7 on the spec's scenario: a top-5
secondary-sales-value question yields ORDER BY the secondary-value alias,
DESC, LIMIT 5. -/
theorem rank_order_direction_limit_rule_witness :
    generate_rank_sql topBrandsStep []
      = Except.ok (rankAssemble topBrandsStep "analyzer" "total_secondary_value"
          (lowerStr topBrandsStep.question))
    ∧ rankDirection (lowerStr topBrandsStep.question) = "DESC"
    ∧ rankLimit (lowerStr topBrandsStep.question) = 5 := by
  have h := (rank_order_direction_limit_rule topBrandsStep []).2.1 (by rfl)
  exact ⟨by rw [h]; rfl, by rfl, by rfl⟩

/-! ## Claim theorems on step failure and aggregation (C4) -/

theorem strContains_refl (s : String) : strContains s s = true := by
  have h := strContains_self_append s ""
  rwa [String.append_empty] at h

theorem runGenerated_error (eff : ExecEffects) (step : WorkplanStep)
    (context : ResultsDict) (sql m0 : String)
    (hne : sql ≠ "") (hsql : eff.exec_sql sql = Except.error m0) :
    runGenerated eff step context sql
      = { step_id := step.id, success := false,
          error := some (sqlErrorMsg m0 sql) } := by
  unfold runGenerated
  rw [if_neg hne, hsql]

theorem execute_with_agent_error (eff : ExecEffects) (step : WorkplanStep)
    (context : ResultsDict) (m : String)
    (h : eff.agent_ask (agentQuery step context) = Except.error m) :
    execute_with_agent eff step context
      = { step_id := step.id, success := false, error := some m } := by
  unfold execute_with_agent
  rw [h]

theorem generate_rank_sql_ok_ne_empty (step : WorkplanStep)
    (context : ResultsDict) (sql : String)
    (h : generate_rank_sql step context = Except.ok sql) : sql ≠ "" := by
  unfold generate_rank_sql at h
  cases hd : dictGet context (rankSource step) with
  | none =>
    simp only [hd, Except.ok.injEq] at h
    rw [← h]
    exact rankAssemble_ne_empty _ _ _ _
  | some r =>
    simp only [hd] at h
    cases hs : r.sql with
    | none => simp [hs] at h
    | some up =>
      simp only [hs, Except.ok.injEq] at h
      rw [← h]
      exact rankAssemble_ne_empty _ _ _ _

/-- C4: a step whose execution raises an exception is recorded as a failed
StepResult whose error is exactly the exception text (non-empty whenever
the exception text is); the loop still executes every remaining step and
then routes to the aggregation stage, which reports overall success as the
conjunction of all recorded per-step success flags. -/
theorem step_failure_recorded_run_continues
    (eff : ExecEffects) (render : PlanExecuteState → String)
    (step : WorkplanStep) (prev : ResultsDict) (m : String)
    (s0 : PlanExecuteState)
    (hraise : stepRaisedMsg eff step prev = some m)
    (hm : m ≠ "")
    (hinit : s0.current_step_index = 0)
    (hres : s0.step_results = [])
    (hwp : s0.workplan ≠ [])
    (hnodup : (s0.workplan.map (fun st => st.id)).Nodup) :
    ((execute_step eff step prev).success = false
      ∧ (execute_step eff step prev).error = some m
      ∧ (execute_step eff step prev).error ≠ some "")
    ∧ after_execute (executeLoop eff s0) = ExecRoute.toAggregate
    ∧ (executeLoop eff s0).current_step_index = s0.workplan.length
    ∧ (executeLoop eff s0).step_results.map (fun kv => kv.1)
        = s0.workplan.map (fun st => st.id)
    ∧ (aggregate_results_node render (executeLoop eff s0)).success
        = (executeLoop eff s0).step_results.all (fun kv => kv.2.success) := by
  have key : execute_step eff step prev
      = { step_id := step.id, success := false, error := some m } := by
    simp only [stepRaisedMsg] at hraise
    simp only [execute_step]
    by_cases h1 : step.type = "filter"
    · rw [if_pos h1] at hraise ⊢
      cases hsql : eff.exec_sql (generate_filter_sql step) with
      | error m0 =>
        simp only [hsql, Option.some.injEq] at hraise
        rw [runGenerated_error eff step _ _ m0
          (generate_filter_sql_ne_empty step) hsql, hraise]
      | ok rows => simp [hsql] at hraise
    · rw [if_neg h1] at hraise ⊢
      by_cases h2 : step.type = "aggregate"
      · rw [if_pos h2] at hraise ⊢
        cases hsql : eff.exec_sql (generate_aggregate_sql step) with
        | error m0 =>
          simp only [hsql, Option.some.injEq] at hraise
          rw [runGenerated_error eff step _ _ m0
            (generate_aggregate_sql_ne_empty step) hsql, hraise]
        | ok rows => simp [hsql] at hraise
      · rw [if_neg h2] at hraise ⊢
        by_cases h3 : step.type = "calculate"
        · rw [if_pos h3] at hraise ⊢
          cases hsql : eff.exec_sql
              (generate_calculate_sql eff.pyStr step (buildContext step prev)) with
          | error m0 =>
            simp only [hsql, Option.some.injEq] at hraise
            rw [runGenerated_error eff step _ _ m0
              (generate_calculate_sql_ne_empty eff.pyStr step _) hsql, hraise]
          | ok rows => simp [hsql] at hraise
        · rw [if_neg h3] at hraise ⊢
          by_cases h4 : step.type = "rank"
          · rw [if_pos h4] at hraise ⊢
            cases hrank : generate_rank_sql step (buildContext step prev) with
            | error mg =>
              simp only [hrank, Option.some.injEq] at hraise
              rw [hraise]
            | ok sql =>
              simp only [hrank] at hraise ⊢
              cases hsql : eff.exec_sql sql with
              | error m0 =>
                simp only [hsql, Option.some.injEq] at hraise
                rw [runGenerated_error eff step _ _ m0
                  (generate_rank_sql_ok_ne_empty step _ sql hrank) hsql, hraise]
              | ok rows => simp [hsql] at hraise
          · rw [if_neg h4] at hraise ⊢
            cases hag : eff.agent_ask (agentQuery step (buildContext step prev)) with
            | error ma =>
              simp only [hag, Option.some.injEq] at hraise
              by_cases h5 : step.type = "compare"
              · rw [if_pos h5,
                  execute_with_agent_error eff step _ ma hag, hraise]
              · rw [if_neg h5,
                  execute_with_agent_error eff step _ ma hag, hraise]
            | ok r => simp [hag] at hraise
  have hle : s0.current_step_index ≤ s0.workplan.length := by
    rw [hinit]; exact Nat.zero_le _
  obtain ⟨hw, hidx, hres'⟩ :=
    executeLoop_spec eff (s0.workplan.length - s0.current_step_index) s0 rfl hle
  have hloopres : (executeLoop eff s0).step_results
      = freshRun eff s0.workplan [] := by
    rw [hres', hinit, List.drop_zero, hres,
      runSteps_fresh eff s0.workplan [] (fun st _ => rfl) hnodup]
    rfl
  have hne2 : (executeLoop eff s0).step_results ≠ [] := by
    rw [hloopres]
    exact freshRun_ne_nil eff _ _ hwp
  have hie : (executeLoop eff s0).step_results.isEmpty = false := by
    simpa [List.isEmpty_iff] using hne2
  refine ⟨⟨?_, ?_, ?_⟩, ?_, hidx, ?_, ?_⟩
  · rw [key]
  · rw [key]
  · rw [key]
    simp only [ne_eq, Option.some.injEq]
    exact hm
  · unfold after_execute
    rw [hw, hidx, if_pos (le_refl _)]
  · rw [hloopres, freshRun_keys]
  · simp [aggregate_results_node, hie]

/-- Effects for the C4 witness: a database that always raises. -/
def effC4 : ExecEffects :=
  { exec_sql := fun _ => Except.error "boom"
    agent_ask := fun _ => Except.error "agent down"
    summarize := fun _ _ => ""
    pyStr := fun _ => "" }

/-- The step that fails in the C4 witness run. -/
def failingStep : WorkplanStep :=
  { id := "w1", type := "filter", depends_on := [],
    question := "everything", params := [] }

/-- Initial execution state of the C4 witness run. -/
def stateC4 : PlanExecuteState :=
  { initialState "q" [] with workplan := [failingStep] }

/-- Concrete run of C4: the step's SQL raises, its result records the
exception text, the loop reaches aggregation, and the aggregate success is
the conjunction of the step flags (here false). -/
theorem step_failure_recorded_run_continues_witness :
    stepRaisedMsg effC4 failingStep []
        = some (sqlErrorMsg "boom" (generate_filter_sql failingStep))
    ∧ (execute_step effC4 failingStep []).success = false
    ∧ after_execute (executeLoop effC4 stateC4) = ExecRoute.toAggregate
    ∧ (aggregate_results_node (fun _ => "") (executeLoop effC4 stateC4)).success
        = false := by
  have h := step_failure_recorded_run_continues effC4 (fun _ => "")
    failingStep [] (sqlErrorMsg "boom" (generate_filter_sql failingStep))
    stateC4 (by rfl) (by decide) rfl rfl (by decide) (by decide)
  have hs := (executeLoop_spec effC4 1 stateC4 rfl (Nat.zero_le _)).2.2
  refine ⟨by rfl, h.1.1, h.2.1, ?_⟩
  rw [h.2.2.2.2, hs]
  rfl

end Abbott
